import Mathlib

/-!
Verification of the pybind11 binding shim
`tudatpy/kernel/expose_simulation/expose_astro_setup.cpp`.

The file under analysis registers a single function,
`create_transfer_trajectory`, on a Python module, forwarding five named
keyword arguments to the external native function
`tudat::mission_segments::createTransferTrajectory`.  We embed:

* the module-registration step (`expose_astro_setup`) as appending one
  binding record to a list of bindings;
* the pybind11 argument-binding discipline for a signature declared with
  `py::arg(...)` and no default values (`bindArgs`): positional arguments
  fill parameters left to right, remaining parameters are filled by
  keyword, and a missing, duplicate, or extra argument is a call-boundary
  error raised before the native function runs;
* the forwarded call (`callCreateTransferTrajectory`), parametric in the
  external native function, which is modelled as a state-passing function
  returning a result or an error.  The call returns the outcome, the list
  of invocations of the native function (argument tuples, in order), and
  the final external-world state, so that "invoked exactly once",
  "errors propagate unchanged" and "no side effect of its own" become
  provable statements.
-/

namespace TudatPyAstroSetup

/-- The native symbols referenced by active code in the file: only
`tms::createTransferTrajectory` is referenced by an uncommented binding. -/
inductive NativeFn : Type where
  | createTransferTrajectory : NativeFn
  deriving DecidableEq, Repr

/-- One `m.def(name, &fn, py::arg(n1), ..., py::arg(nk))` registration:
the exposed name, the native function bound, and the declared keyword
names of the parameters, in declaration order, all required (the source
declares no default values). -/
structure PyBinding : Type where
  name : String
  native : NativeFn
  argNames : List String
  deriving DecidableEq, Repr

/-- The declared keyword names of `create_transfer_trajectory`, in the
order of the `py::arg` declarations in the source. -/
def ctt_argNames : List String :=
  ["bodies", "leg_settings", "node_settings", "node_names", "central_body"]

/-- The binding registered by the single active `m.def` call in the
source: exposed name `create_transfer_trajectory`, target
`&tms::createTransferTrajectory`, five required keyword arguments. -/
def create_transfer_trajectory_binding : PyBinding :=
  { name := "create_transfer_trajectory"
    native := NativeFn.createTransferTrajectory
    argNames := ctt_argNames }

/-- The registration function `expose_astro_setup(py::module &m)`: the
body consists of one
active `m.def` call registering `create_transfer_trajectory` (the
`defaut_mga_no_dsm_settings` block is commented out and performs no
registration), so the module gains exactly this binding. -/
def expose_astro_setup (m : List PyBinding) : List PyBinding :=
  m ++ [create_transfer_trajectory_binding]

/-- Look up a registered function by exposed name. -/
def lookupBinding (m : List PyBinding) (s : String) : Option PyBinding :=
  m.find? (fun b => b.name == s)

/-- pybind11 argument binding for a signature whose parameters are all
declared with `py::arg` and no default: positional arguments fill the
declared parameters left to right; a parameter not filled positionally is
taken from the keyword arguments; a parameter given both positionally and
by keyword, a parameter given by neither, a surplus positional argument,
or a leftover keyword argument is a call-boundary error (`none`), raised
before the native function is ever invoked. -/
def bindArgs {V : Type} : List String → List V → List (String × V) → Option (List V)
  | [], [], kws => if kws.isEmpty then some [] else none
  | [], _ :: _, _ => none
  | n :: ns, p :: ps, kws =>
      if kws.any (fun q => q.1 == n) then none
      else (bindArgs ns ps kws).map (fun vs => p :: vs)
  | n :: ns, [], kws =>
      match kws.find? (fun q => q.1 == n) with
      | some q => (bindArgs ns [] (kws.eraseP (fun q => q.1 == n))).map
          (fun vs => q.2 :: vs)
      | none => none

/-- The five arguments of `tms::createTransferTrajectory`, in the
positional order of the native signature. -/
structure Args5 (V : Type) : Type where
  bodies : V
  leg_settings : V
  node_settings : V
  node_names : V
  central_body : V
  deriving DecidableEq, Repr

/-- Bind a call's positional and keyword arguments against the declared
signature of `create_transfer_trajectory`, producing the positional
argument tuple delivered to the native function, or `none` on a
call-boundary mismatch. -/
def boundArgs {V : Type} (pos : List V) (kws : List (String × V)) :
    Option (Args5 V) :=
  match bindArgs ctt_argNames pos kws with
  | some [b, l, n, nn, cb] => some ⟨b, l, n, nn, cb⟩
  | _ => none

/-- Outcome of a call through the binding layer: a boundary error raised
by pybind11 itself (arity/keyword mismatch), an error raised by the
native function and propagated unchanged, or the native function's return
value, unmodified. -/
inductive CallOutcome (E R : Type) : Type where
  | boundaryError : CallOutcome E R
  | nativeError : E → CallOutcome E R
  | ok : R → CallOutcome E R
  deriving DecidableEq, Repr

/-- A call to the exposed `create_transfer_trajectory`.  `ext` is the
external native function `tms::createTransferTrajectory`, taking the five
arguments and the external-world state and returning a result or an error
together with the new state.  The shim binds the arguments, and on
success invokes `ext` once with the bound tuple, forwarding its result or
error and its state change verbatim; on a binding mismatch it raises a
boundary error without invoking `ext`.  The second component is the trace
of invocations of `ext` (the argument tuples delivered, in order); the
third is the final external-world state. -/
def callCreateTransferTrajectory {V E R S : Type}
    (ext : Args5 V → S → Except E R × S)
    (pos : List V) (kws : List (String × V)) (s : S) :
    CallOutcome E R × List (Args5 V) × S :=
  match boundArgs pos kws with
  | some a =>
      ((match (ext a s).1 with
        | Except.ok r => CallOutcome.ok r
        | Except.error e => CallOutcome.nativeError e),
       [a], (ext a s).2)
  | none => (CallOutcome.boundaryError, [], s)

/-- The five keyword arguments of a call
`create_transfer_trajectory(bodies=b, leg_settings=l, node_settings=n,
node_names=nn, central_body=cb)`. -/
def cttKwargs {V : Type} (b l n nn cb : V) : List (String × V) :=
  [("bodies", b), ("leg_settings", l), ("node_settings", n),
   ("node_names", nn), ("central_body", cb)]

/-! ## Theorems about the registration step -/

/-- C2: `expose_astro_setup(m)` registers exactly one function on `m`,
named `create_transfer_trajectory`, and makes no other change to `m`: the
resulting module is `m` with exactly that one binding appended, and the
lookup of every other name is unchanged. -/
theorem expose_astro_setup_registers_exactly_one (m : List PyBinding) :
    expose_astro_setup m = m ++ [create_transfer_trajectory_binding] ∧
    create_transfer_trajectory_binding.name = "create_transfer_trajectory" ∧
    (∀ s : String, s ≠ "create_transfer_trajectory" →
      lookupBinding (expose_astro_setup m) s = lookupBinding m s) := by
  refine ⟨rfl, rfl, fun s hs => ?_⟩
  have hp : (create_transfer_trajectory_binding.name == s) = false :=
    beq_eq_false_iff_ne.mpr fun h => hs h.symm
  simp [lookupBinding, expose_astro_setup, List.find?_append,
    List.find?_cons, hp]

/-- Closed instance of `expose_astro_setup_registers_exactly_one`: on the
empty module, looking up a name other than `create_transfer_trajectory`
after registration finds nothing, just as before registration. -/
theorem expose_astro_setup_registers_exactly_one_witness :
    lookupBinding (expose_astro_setup []) "other_name" =
      lookupBinding [] "other_name" :=
  (expose_astro_setup_registers_exactly_one []).2.2 "other_name" (by decide)

/-- C3: the exposed entry point `create_transfer_trajectory` declares
exactly five parameters, with keyword names `bodies`, `leg_settings`,
`node_settings`, `node_names`, `central_body`, in that order, and is
bound to the native function `tms::createTransferTrajectory`. -/
theorem create_transfer_trajectory_signature :
    create_transfer_trajectory_binding.argNames =
      ["bodies", "leg_settings", "node_settings", "node_names",
       "central_body"] ∧
    create_transfer_trajectory_binding.argNames.length = 5 ∧
    create_transfer_trajectory_binding.native =
      NativeFn.createTransferTrajectory := by
  refine ⟨rfl, rfl, rfl⟩

/-! ## Theorems about the forwarded call -/

/-- C1: a call with the five keyword arguments `bodies`, `leg_settings`,
`node_settings`, `node_names`, `central_body` invokes the external
function exactly once (the invocation trace is a one-element list),
delivering exactly those five values in the positional order of the
native signature. -/
theorem create_transfer_trajectory_forwards {V E R S : Type}
    (ext : Args5 V → S → Except E R × S) (b l n nn cb : V) (s : S) :
    (callCreateTransferTrajectory ext [] (cttKwargs b l n nn cb) s).2.1
        = [⟨b, l, n, nn, cb⟩] ∧
    boundArgs [] (cttKwargs b l n nn cb) = some ⟨b, l, n, nn, cb⟩ :=
  ⟨rfl, rfl⟩

/-- C8: supplying the five arguments positionally in the declared order
is equivalent to supplying the same values by keyword — the two call
forms produce identical outcomes, identical invocation traces of the
external function, and identical final states. -/
theorem create_transfer_trajectory_positional_keyword_equiv
    {V E R S : Type} (ext : Args5 V → S → Except E R × S)
    (b l n nn cb : V) (s : S) :
    callCreateTransferTrajectory ext [b, l, n, nn, cb] [] s
      = callCreateTransferTrajectory ext [] (cttKwargs b l n nn cb) s :=
  rfl

/-- C10: the shim is deterministic — the argument tuples it delivers to
the external function depend only on the supplied argument values, not on
the external state nor on the external function itself; hence two calls
with equal argument values deliver equal tuples, and any observable
nondeterminism originates in the external library alone. -/
theorem create_transfer_trajectory_deterministic {V E R S : Type}
    (ext₁ ext₂ : Args5 V → S → Except E R × S)
    (pos : List V) (kws : List (String × V)) (s₁ s₂ : S) :
    (callCreateTransferTrajectory ext₁ pos kws s₁).2.1
      = (callCreateTransferTrajectory ext₂ pos kws s₂).2.1 := by
  unfold callCreateTransferTrajectory
  cases boundArgs pos kws <;> rfl

/-- C5: whenever the external function returns a value, the exposed entry
point returns exactly that value, unmodified, together with the external
function's state change, verbatim. -/
theorem create_transfer_trajectory_returns_unmodified {V E R S : Type}
    (ext : Args5 V → S → Except E R × S)
    (pos : List V) (kws : List (String × V)) (s : S)
    (a : Args5 V) (r : R) (s' : S)
    (ha : boundArgs pos kws = some a)
    (hr : ext a s = (Except.ok r, s')) :
    callCreateTransferTrajectory ext pos kws s
      = (CallOutcome.ok r, [a], s') := by
  simp only [callCreateTransferTrajectory, ha, hr]

/-- Closed instance of `create_transfer_trajectory_returns_unmodified`:
with a concrete external function returning `ok 42`, the full keyword
call returns `ok 42` with a one-invocation trace. -/
theorem create_transfer_trajectory_returns_unmodified_witness :
    callCreateTransferTrajectory
        (fun (_ : Args5 Nat) (s : Nat) => ((Except.ok 42 : Except Nat Nat), s + 1))
        [] (cttKwargs 1 2 3 4 5) 0
      = (CallOutcome.ok 42, [⟨1, 2, 3, 4, 5⟩], 1) :=
  create_transfer_trajectory_returns_unmodified
    (fun _ s => (Except.ok 42, s + 1)) [] (cttKwargs 1 2 3 4 5) 0
    ⟨1, 2, 3, 4, 5⟩ 42 1 rfl rfl

/-- C4: errors propagate unchanged, and the only error the shim itself
introduces is the call-boundary mismatch, raised without the external
function being invoked (empty invocation trace): whenever the external
function raises `e` on the bound arguments, the call raises exactly `e`
after invoking it exactly once; whenever argument binding fails, the call
raises the boundary error with an empty invocation trace. -/
theorem create_transfer_trajectory_error_propagation {V E R S : Type}
    (ext : Args5 V → S → Except E R × S)
    (pos : List V) (kws : List (String × V)) (s : S) :
    (∀ (a : Args5 V) (e : E) (s' : S),
        boundArgs pos kws = some a → ext a s = (Except.error e, s') →
        callCreateTransferTrajectory ext pos kws s
          = (CallOutcome.nativeError e, [a], s')) ∧
    (boundArgs pos kws = none →
        callCreateTransferTrajectory ext pos kws s
          = (CallOutcome.boundaryError, [], s)) := by
  constructor
  · intro a e s' ha he
    simp only [callCreateTransferTrajectory, ha, he]
  · intro h
    simp only [callCreateTransferTrajectory, h]

/-- Closed instance of `create_transfer_trajectory_error_propagation`:
a concrete external function raising error `7` has that error propagated
unchanged through a full keyword call, and an empty call raises the
boundary error without the external function running. -/
theorem create_transfer_trajectory_error_propagation_witness :
    callCreateTransferTrajectory
        (fun (_ : Args5 Nat) (s : Nat) =>
          ((Except.error 7 : Except Nat Nat), s + 1))
        [] (cttKwargs 1 2 3 4 5) 0
      = (CallOutcome.nativeError 7, [⟨1, 2, 3, 4, 5⟩], 1) ∧
    callCreateTransferTrajectory
        (fun (_ : Args5 Nat) (s : Nat) =>
          ((Except.error 7 : Except Nat Nat), s + 1))
        [] [] 0
      = (CallOutcome.boundaryError, [], 0) :=
  ⟨(create_transfer_trajectory_error_propagation
      (fun _ s => (Except.error 7, s + 1)) [] (cttKwargs 1 2 3 4 5) 0).1
      ⟨1, 2, 3, 4, 5⟩ 7 1 rfl rfl,
   (create_transfer_trajectory_error_propagation
      (fun _ s => (Except.error 7, s + 1)) [] [] 0).2 rfl⟩

/-- C6: the shim has no side effect of its own: when the external
function is invoked, the final external-world state is exactly the state
the external function returns, and the argument tuple delivered is
exactly the bound argument values; when binding fails, the state is
returned untouched and the external function is never invoked. -/
theorem create_transfer_trajectory_no_own_side_effects {V E R S : Type}
    (ext : Args5 V → S → Except E R × S)
    (pos : List V) (kws : List (String × V)) (s : S) :
    (∀ a : Args5 V, boundArgs pos kws = some a →
        (callCreateTransferTrajectory ext pos kws s).2.2 = (ext a s).2 ∧
        (callCreateTransferTrajectory ext pos kws s).2.1 = [a]) ∧
    (boundArgs pos kws = none →
        (callCreateTransferTrajectory ext pos kws s).2.2 = s ∧
        (callCreateTransferTrajectory ext pos kws s).2.1 = []) := by
  constructor
  · intro a ha
    simp [callCreateTransferTrajectory, ha]
  · intro h
    simp [callCreateTransferTrajectory, h]

/-- Closed instance of `create_transfer_trajectory_no_own_side_effects`:
with a concrete state-incrementing external function, the final state
after a full keyword call is exactly the external function's output
state, and the invocation trace is the single bound tuple. -/
theorem create_transfer_trajectory_no_own_side_effects_witness :
    (callCreateTransferTrajectory
        (fun (_ : Args5 Nat) (s : Nat) =>
          ((Except.ok 0 : Except Nat Nat), s + 9))
        [] (cttKwargs 1 2 3 4 5) 0).2.2 = 9 ∧
    (callCreateTransferTrajectory
        (fun (_ : Args5 Nat) (s : Nat) =>
          ((Except.ok 0 : Except Nat Nat), s + 9))
        [] (cttKwargs 1 2 3 4 5) 0).2.1 = [⟨1, 2, 3, 4, 5⟩] :=
  (create_transfer_trajectory_no_own_side_effects
      (fun _ s => (Except.ok 0, s + 9)) [] (cttKwargs 1 2 3 4 5) 0).1
    ⟨1, 2, 3, 4, 5⟩ rfl

/-- Helper for C9: if the parameter at index `i` is covered neither
positionally (fewer than `i + 1` positional arguments) nor by keyword
(its name is absent from the keyword list), argument binding fails. -/
theorem bindArgs_eq_none_of_missing {V : Type} :
    ∀ (names : List String) (pos : List V) (kws : List (String × V))
      (i : Nat) (hi : i < names.length),
      pos.length ≤ i → names.get ⟨i, hi⟩ ∉ kws.map Prod.fst →
      bindArgs names pos kws = none := by
  intro names
  induction names with
  | nil =>
      intro pos kws i hi
      exact absurd hi (Nat.not_lt_zero i)
  | cons n ns ih =>
      intro pos kws i hi hpos hk
      cases pos with
      | cons p ps =>
          cases i with
          | zero => exact absurd hpos (Nat.not_succ_le_zero _)
          | succ j =>
              have hrec : bindArgs ns ps kws = none :=
                ih ps kws j (Nat.lt_of_succ_lt_succ hi)
                  (Nat.le_of_succ_le_succ hpos) hk
              simp only [bindArgs, hrec, Option.map_none]
              cases kws.any (fun q => q.1 == n) <;> rfl
      | nil =>
          cases i with
          | zero =>
              have hf : kws.find? (fun q => q.1 == n) = none := by
                rw [List.find?_eq_none]
                intro q hq hq1
                exact hk (List.mem_map.mpr ⟨q, hq, by simpa using hq1⟩)
              simp [bindArgs, hf]
          | succ j =>
              simp only [bindArgs]
              cases hf : kws.find? (fun q => q.1 == n) with
              | none => rfl
              | some q =>
                  have hsub :
                      (kws.eraseP (fun q => q.1 == n)).map Prod.fst ⊆
                        kws.map Prod.fst :=
                    (List.Sublist.map Prod.fst
                      (List.eraseP_sublist kws)).subset
                  have hrec :
                      bindArgs ns []
                        (kws.eraseP (fun q => q.1 == n)) = none :=
                    ih [] _ j (Nat.lt_of_succ_lt_succ hi)
                      (Nat.zero_le j) (fun hmem => hk (hsub hmem))
                  simp [hrec]

/-- C9: all five parameters are required: a call that omits any of the
five declared arguments — the parameter at index `i` is filled neither
positionally nor by keyword — fails at the call boundary, for every
combination of supplied arguments, with the external function never
invoked (empty invocation trace, state untouched). -/
theorem create_transfer_trajectory_args_required {V E R S : Type}
    (ext : Args5 V → S → Except E R × S)
    (pos : List V) (kws : List (String × V)) (s : S)
    (i : Nat) (hi : i < ctt_argNames.length)
    (hpos : pos.length ≤ i)
    (hk : ctt_argNames.get ⟨i, hi⟩ ∉ kws.map Prod.fst) :
    callCreateTransferTrajectory ext pos kws s
      = (CallOutcome.boundaryError, [], s) := by
  have h := bindArgs_eq_none_of_missing ctt_argNames pos kws i hi hpos hk
  simp [callCreateTransferTrajectory, boundArgs, h]

/-- Closed instance of `create_transfer_trajectory_args_required`:
omitting `central_body` (index 4) while supplying the other four
arguments by keyword fails at the boundary without invoking the external
function. -/
theorem create_transfer_trajectory_args_required_witness :
    callCreateTransferTrajectory
        (fun (_ : Args5 Nat) (s : Nat) =>
          ((Except.ok 0 : Except Nat Nat), s))
        [] [("bodies", 1), ("leg_settings", 2), ("node_settings", 3),
            ("node_names", 4)] 0
      = (CallOutcome.boundaryError, [], 0) :=
  create_transfer_trajectory_args_required
    (fun _ s => (Except.ok 0, s))
    [] [("bodies", 1), ("leg_settings", 2), ("node_settings", 3),
        ("node_names", 4)] 0
    4 (by decide) (by decide) (by decide)

/-- C7: the commented-out sibling binding is disabled: running
`expose_astro_setup` adds no binding other than
`create_transfer_trajectory` — in particular none named
`defaut_mga_no_dsm_settings` (the spelling in the source) nor
`default_mga_no_dsm_settings`, and no binding it adds accepts the
keyword arguments `node_times`, `leg_free_parameters`, or
`node_free_parameters`; on an empty module neither name is found after
registration. -/
theorem defaut_mga_no_dsm_settings_not_registered (m : List PyBinding) :
    (∀ b : PyBinding, b ∈ expose_astro_setup m → b ∉ m →
        b.name = "create_transfer_trajectory" ∧
        b.name ≠ "defaut_mga_no_dsm_settings" ∧
        b.name ≠ "default_mga_no_dsm_settings" ∧
        "node_times" ∉ b.argNames ∧
        "leg_free_parameters" ∉ b.argNames ∧
        "node_free_parameters" ∉ b.argNames) ∧
    lookupBinding (expose_astro_setup []) "defaut_mga_no_dsm_settings"
      = none ∧
    lookupBinding (expose_astro_setup []) "default_mga_no_dsm_settings"
      = none := by
  refine ⟨fun b hb hbm => ?_, by decide, by decide⟩
  rcases List.mem_append.mp hb with h | h
  · exact absurd h hbm
  · have hb' : b = create_transfer_trajectory_binding := by simpa using h
    subst hb'
    exact ⟨rfl, by decide, by decide, by decide, by decide, by decide⟩

/-- Closed instance of `defaut_mga_no_dsm_settings_not_registered`: the
one binding added to the empty module is not named
`defaut_mga_no_dsm_settings` and does not accept `node_times`. -/
theorem defaut_mga_no_dsm_settings_not_registered_witness :
    create_transfer_trajectory_binding.name
        ≠ "defaut_mga_no_dsm_settings" ∧
    "node_times" ∉ create_transfer_trajectory_binding.argNames :=
  ⟨((defaut_mga_no_dsm_settings_not_registered []).1
      create_transfer_trajectory_binding (by decide)
      (List.not_mem_nil _)).2.1,
   ((defaut_mga_no_dsm_settings_not_registered []).1
      create_transfer_trajectory_binding (by decide)
      (List.not_mem_nil _)).2.2.2.1⟩

end TudatPyAstroSetup
